import Mathlib

/-!
Verification of the markdown_converter repository.

The program (src/convert_documents.py) converts DOCX/PDF documents to
Markdown.  Its algorithmic core is `patch_pdf_mediabox`, which rewrites a
PDF page-by-page, substituting a default A4 MediaBox for pages whose
MediaBox is absent or has zero width or height.  Around it sit the retry
logic of `convert_document_to_markdown`, the config reader `parse_config`
and the `main` driver loop.

Modelling conventions:
* A PDF rectangle is four numbers (lower-left x/y, upper-right x/y); the
  library's `width` is `right - left` and `height` is `top - bottom`, with
  no normalisation, so both may be negative.  We use `Int`.
* A page is its (optional) MediaBox plus an opaque payload `content`
  standing for everything else `writer.add_page` copies.
* Python strings manipulated character-wise (config values, error
  messages searched for a substring) are modelled as `List Char`;
  composed messages stay `String`.
* External effects (whether `PdfReader` parses, whether the destination
  opens for writing, what the conversion library raises) are inputs of
  the embedded functions; the functions return the observable outcome.
-/

namespace MarkdownConverter

/-- Python `str` viewed as a character sequence. -/
abbrev PyStr := List Char

/-- `listPrefixB n h` is true when `n` is an initial segment of `h`
(Python `str.startswith`). -/
def listPrefixB : List Char → List Char → Bool
  | [], _ => true
  | _ :: _, [] => false
  | a :: as, b :: bs => a == b && listPrefixB as bs

/-- `listSubstrB n h` is true when `n` occurs contiguously in `h`
(Python `needle in haystack`). -/
def listSubstrB (needle : List Char) : List Char → Bool
  | [] => needle.isEmpty
  | b :: bs => listPrefixB needle (b :: bs) || listSubstrB needle bs

/-- Python `str.strip()`: drop whitespace from both ends. -/
def pyStrip (s : PyStr) : PyStr :=
  ((s.dropWhile Char.isWhitespace).reverse.dropWhile Char.isWhitespace).reverse

/-- Python `str.strip('"')`: drop double-quote characters from both ends. -/
def pyStripQuote (s : PyStr) : PyStr :=
  ((s.dropWhile (· == '"')).reverse.dropWhile (· == '"')).reverse

/-- A PDF rectangle: `[llx, lly, urx, ury]`, as stored in a MediaBox
array.  PyPDF2 performs no corner normalisation. -/
structure Rect where
  llx : Int
  lly : Int
  urx : Int
  ury : Int
  deriving DecidableEq, Repr

/-- PyPDF2 `RectangleObject.width = right - left`. -/
def Rect.width (r : Rect) : Int := r.urx - r.llx

/-- PyPDF2 `RectangleObject.height = top - bottom`. -/
def Rect.height (r : Rect) : Int := r.ury - r.lly

/-- The fixed default written by the patch: lower-left `(0,0)`,
upper-right `(595,842)` (A4 in points). -/
def a4MediaBox : Rect := ⟨0, 0, 595, 842⟩

/-- A PDF page: its MediaBox (`none` when the attribute is missing) and
an opaque payload for everything else `writer.add_page` copies. -/
structure Page where
  mediabox : Option Rect
  content : Nat
  deriving DecidableEq, Repr

/-- The patch condition of line 96:
`not page.mediabox or page.mediabox.width == 0 or page.mediabox.height == 0`. -/
def pageNeedsPatch (p : Page) : Bool :=
  match p.mediabox with
  | none => true
  | some r => r.width == 0 || r.height == 0

/-- Lines 98–99: set `lower_left = (0,0)` and `upper_right = (595,842)`,
i.e. replace the MediaBox by `a4MediaBox`; everything else is kept. -/
def setA4 (p : Page) : Page := { p with mediabox := some a4MediaBox }

/-- The effect of one loop iteration (lines 94–102) on a page. -/
def patchPage (p : Page) : Page :=
  if pageNeedsPatch p then setA4 p else p

/-- The page loop of `patch_pdf_mediabox` (lines 92–102): each page is
patched when `pageNeedsPatch` holds, then added to the writer; the
counter tallies the patched pages.  Returns (output pages, count). -/
def patch_pdf_mediabox_pages : List Page → List Page × Nat
  | [] => ([], 0)
  | p :: ps =>
    let rest := patch_pdf_mediabox_pages ps
    if pageNeedsPatch p then (setA4 p :: rest.1, rest.2 + 1)
    else (p :: rest.1, rest.2)

/-- The source file as `PdfReader` sees it: either parsing raises (with
an exception class name and text) or it yields the page list. -/
inductive PdfSource where
  | unparsable (ename : String) (emsg : String)
  | parsed (pages : List Page)
  deriving DecidableEq, Repr

/-- Whether the destination can be opened and written
(`open(output_path, "wb")` / `writer.write(f)`); on failure, the raised
exception's class name and text. -/
inductive WriteDest where
  | writable
  | unwritable (ename : String) (emsg : String)
  deriving DecidableEq, Repr

def sourceParses : PdfSource → Bool
  | .unparsable _ _ => false
  | .parsed _ => true

def destWritable : WriteDest → Bool
  | .writable => true
  | .unwritable _ _ => false

/-- Observable outcome of `patch_pdf_mediabox`: the returned pair
(success flag, message), the destination file's content when a complete
write happened (`none` otherwise: nothing, or a partial write that is
not a valid result), and the source file after the call. -/
structure PatchRunResult where
  success : Bool
  message : String
  written : Option (List Page)
  sourceAfter : PdfSource
  deriving Repr

/-- `patch_pdf_mediabox` (lines 72–117).  Reads the source, runs the
page loop, writes the destination; any exception is caught and turned
into `(False, "PDF patching failed: <type>: <text>")`.  The source file
is only ever read, so it is returned unchanged. -/
def patch_pdf_mediabox (src : PdfSource) (dst : WriteDest) : PatchRunResult :=
  match src with
  | .unparsable en em =>
    ⟨false, "PDF patching failed: " ++ en ++ ": " ++ em, none, src⟩
  | .parsed pages =>
    match dst with
    | .unwritable en em =>
      ⟨false, "PDF patching failed: " ++ en ++ ": " ++ em, none, src⟩
    | .writable =>
      let r := patch_pdf_mediabox_pages pages
      ⟨true, "Patched " ++ toString r.2 ++ " page(s)", some r.1, src⟩

/-- A Python exception as seen by the handlers of
`convert_document_to_markdown`. -/
inductive PyExn where
  | runtimeError (msg : PyStr)
  | fileNotFoundError (msg : PyStr)
  | otherError (ename : String) (msg : PyStr)
  deriving DecidableEq, Repr

/-- Outcome of one `converter.convert` call. -/
inductive ConvAttempt where
  | ok
  | raises (e : PyExn)
  deriving DecidableEq, Repr

/-- The environment of one `convert_document_to_markdown` run: whether
`doc_path.suffix.lower() == ".pdf"`, what the first conversion attempt
does, whether `patch_pdf_mediabox` would succeed (and its message), and
what a retry on the patched file would do. -/
structure ConvEnv where
  isPdfSuffix : Bool
  firstAttempt : ConvAttempt
  patchSuccess : Bool
  patchMsg : String
  retryAttempt : ConvAttempt
  deriving DecidableEq, Repr

/-- Observable trace of a `convert_document_to_markdown` run: the
returned success flag and message, how many times `patch_pdf_mediabox`
was invoked, how many `converter.convert` calls were made, and whether
the last conversion used the patched file. -/
structure ConvTrace where
  success : Bool
  message : String
  patchCalls : Nat
  convertCalls : Nat
  usedPatchedFile : Bool
  deriving DecidableEq, Repr

/-- The substring of line 171 that identifies a MediaBox failure. -/
def mediaboxErrPhrase : PyStr := "could not find the page-dimensions".toList

/-- Message produced when an exception reaches the outer handlers
(lines 254–257): `FileNotFoundError` gets `"File not found: ..."`, any
other exception `"Conversion failed: <type>: <text>"`. -/
def exnFailureMessage : PyExn → String
  | .runtimeError m => "Conversion failed: RuntimeError: " ++ String.mk m
  | .fileNotFoundError m => "File not found: " ++ String.mk m
  | .otherError en m => "Conversion failed: " ++ en ++ ": " ++ String.mk m

/-- The conversion logic of `convert_document_to_markdown`
(lines 136–257), abstracting the export/image bookkeeping that follows a
successful conversion (it is opaque library I/O and assumed to
succeed).  A `RuntimeError` on the first attempt whose text contains
`mediaboxErrPhrase`, on a `.pdf` file, leads to one patch attempt; if
the patch succeeds the conversion is retried once on the patched file,
and if it fails an `Exception` is raised into the outer handler.  Every
other exception propagates to the outer handlers at once. -/
def convert_document_to_markdown (env : ConvEnv) : ConvTrace :=
  match env.firstAttempt with
  | .ok => ⟨true, "Successfully converted", 0, 1, false⟩
  | .raises e =>
    match e with
    | .runtimeError m =>
      if env.isPdfSuffix && listSubstrB mediaboxErrPhrase m then
        if env.patchSuccess then
          match env.retryAttempt with
          | .ok =>
            ⟨true, "Successfully converted (used patched PDF)", 1, 2, true⟩
          | .raises e2 => ⟨false, exnFailureMessage e2, 1, 2, true⟩
        else
          ⟨false,
            "Conversion failed: Exception: Failed to patch PDF: " ++ env.patchMsg,
            1, 1, false⟩
      else ⟨false, exnFailureMessage (.runtimeError m), 0, 1, false⟩
    | .fileNotFoundError m =>
      ⟨false, exnFailureMessage (.fileNotFoundError m), 0, 1, false⟩
    | .otherError en m =>
      ⟨false, exnFailureMessage (.otherError en m), 0, 1, false⟩

/-- The configuration file as `configparser` presents it: `none` when
`"FILES" not in config`, otherwise the key/value entries of the
`[FILES]` section in order. -/
structure ConfigData where
  filesSection : Option (List (PyStr × PyStr))

/-- Result of `parse_config` (lines 29–56). -/
inductive ParseConfigResult where
  | fileNotFound (msg : String)
  | valueError (msg : String)
  | ok (files : List PyStr)
  deriving DecidableEq, Repr

/-- Line 53: keep an entry when the value is non-empty and its stripped
form does not start with `"#"`. -/
def configEntryKept (v : PyStr) : Bool :=
  !v.isEmpty && !listPrefixB ['#'] (pyStrip v)

/-- Line 54: the stored path is `value.strip().strip('"')`. -/
def configEntryValue (v : PyStr) : PyStr := pyStripQuote (pyStrip v)

/-- `parse_config` (lines 29–56): raises `FileNotFoundError` when the
config file is missing (`cfg = none`), `ValueError` when the `[FILES]`
section is missing, and otherwise collects the kept entries in order. -/
def parse_config (cfg : Option ConfigData) : ParseConfigResult :=
  match cfg with
  | none => .fileNotFound "Configuration file not found: input/config.ini"
  | some c =>
    match c.filesSection with
    | none => .valueError "Config file must contain a [FILES] section"
    | some entries =>
      .ok ((entries.filter (fun kv => configEntryKept kv.2)).map
        (fun kv => configEntryValue kv.2))

/-- Per-work-item environment in the `main` loop: whether
`(INPUT_DIR / file_name).exists()` and whether
`convert_document_to_markdown` returns success for it. -/
structure ItemEnv where
  fileOnDisk : Bool
  convertOk : Bool

/-- One iteration of the loop of lines 283–299 on the
(success, failure) counters. -/
def processItem (acc : Nat × Nat) (e : ItemEnv) : Nat × Nat :=
  if e.fileOnDisk then
    if e.convertOk then (acc.1 + 1, acc.2) else (acc.1, acc.2 + 1)
  else (acc.1, acc.2 + 1)

/-- The counting loop of `main` (lines 280–299) over all files. -/
def mainLoopCounts (env : PyStr → ItemEnv) (files : List PyStr) : Nat × Nat :=
  files.foldl (fun acc f => processItem acc (env f)) (0, 0)

/-- `main` (lines 260–320): parse the config (errors give exit 1), exit
0 at once when there are no work items, otherwise run every item and
exit 0 exactly when the failure counter is 0 (line 310). -/
def main (cfg : Option ConfigData) (env : PyStr → ItemEnv) : Nat :=
  match parse_config cfg with
  | .fileNotFound _ => 1
  | .valueError _ => 1
  | .ok files =>
    if files.isEmpty then 0
    else if (mainLoopCounts env files).2 = 0 then 0 else 1

/-! ### Helper lemmas -/

/-- The page loop is a `map` paired with a `countP`. -/
theorem patch_pages_eq (doc : List Page) :
    patch_pdf_mediabox_pages doc = (doc.map patchPage, doc.countP pageNeedsPatch) := by
  induction doc with
  | nil => rfl
  | cons p ps ih =>
    simp only [patch_pdf_mediabox_pages, ih, List.map_cons, List.countP_cons, patchPage]
    cases hp : pageNeedsPatch p <;> simp [hp]

/-- The spec's patch condition: the page has no bounding box, or the
bounding box has zero width or zero height. -/
def specDegenerate (p : Page) : Prop :=
  match p.mediabox with
  | none => True
  | some r => r.width = 0 ∨ r.height = 0

instance (p : Page) : Decidable (specDegenerate p) :=
  match p with
  | ⟨none, _⟩ => .isTrue trivial
  | ⟨some r, _⟩ => inferInstanceAs (Decidable (r.width = 0 ∨ r.height = 0))

/-- The code's test (line 96) is exactly the spec's condition. -/
theorem pageNeedsPatch_iff (p : Page) : pageNeedsPatch p = true ↔ specDegenerate p := by
  obtain ⟨mb, c⟩ := p
  cases mb <;> simp [pageNeedsPatch, specDegenerate]

/-! ### C1 -/

/-- C1: for every page of the source PDF, in document order,
`patch_pdf_mediabox` replaces the page's bounding box with the fixed
rectangle (0,0)–(595,842) exactly when the page has no bounding box or
its bounding box has zero width or zero height; every other page is
copied unchanged, and the returned count equals the number of pages so
replaced. -/
theorem patch_replaces_exactly_degenerate_pages (doc : List Page) :
    (patch_pdf_mediabox_pages doc).1.length = doc.length
    ∧ (∀ (i : Nat) (p : Page), doc[i]? = some p →
        (specDegenerate p →
          (patch_pdf_mediabox_pages doc).1[i]? = some (Page.mk (some a4MediaBox) p.content))
        ∧ (¬ specDegenerate p → (patch_pdf_mediabox_pages doc).1[i]? = some p))
    ∧ (patch_pdf_mediabox_pages doc).2 = doc.countP pageNeedsPatch
    ∧ (∀ p, pageNeedsPatch p = true ↔ specDegenerate p) := by
  refine ⟨?_, ?_, ?_, pageNeedsPatch_iff⟩
  · rw [patch_pages_eq]; exact List.length_map doc patchPage
  · intro i p hp
    rw [patch_pages_eq]
    simp only [List.getElem?_map, hp, Option.map_some']
    constructor
    · intro hdeg
      have h : pageNeedsPatch p = true := (pageNeedsPatch_iff p).mpr hdeg
      simp [patchPage, h, setA4]
    · intro hnd
      have h : pageNeedsPatch p = false := by
        cases h : pageNeedsPatch p
        · rfl
        · exact absurd ((pageNeedsPatch_iff p).mp h) hnd
      simp [patchPage, h]
  · rw [patch_pages_eq]

/-- A two-page document exercising both branches of the patch loop. -/
def c1Doc : List Page := [⟨none, 5⟩, ⟨some ⟨1, 2, 6, 10⟩, 7⟩]

/-- C1 witness: on `c1Doc` the degenerate first page is replaced by the
A4 box, the valid second page is copied unchanged, and the count is the
number of degenerate pages. -/
theorem patch_replaces_exactly_degenerate_pages_witness :
    (patch_pdf_mediabox_pages c1Doc).1.length = c1Doc.length
    ∧ (patch_pdf_mediabox_pages c1Doc).1[0]? = some (Page.mk (some a4MediaBox) 5)
    ∧ (patch_pdf_mediabox_pages c1Doc).1[1]? = some (Page.mk (some (Rect.mk 1 2 6 10)) 7)
    ∧ (patch_pdf_mediabox_pages c1Doc).2 = c1Doc.countP pageNeedsPatch := by
  have h := patch_replaces_exactly_degenerate_pages c1Doc
  exact ⟨h.1,
    (h.2.1 0 ⟨none, 5⟩ (by decide)).1 (by decide),
    (h.2.1 1 (Page.mk (some (Rect.mk 1 2 6 10)) 7) (by decide)).2 (by decide),
    h.2.2.1⟩

/-! ### C2 -/

/-- The spec's strict invariant: a bounding box is present and has
strictly positive width and height. -/
def pageNondegenerate (p : Page) : Prop :=
  match p.mediabox with
  | none => False
  | some r => 0 < r.width ∧ 0 < r.height

instance (p : Page) : Decidable (pageNondegenerate p) :=
  match p with
  | ⟨none, _⟩ => .isFalse (fun h => h)
  | ⟨some r, _⟩ => inferInstanceAs (Decidable (0 < r.width ∧ 0 < r.height))

/-- A page whose box has width `-1`: the code's zero test does not fire,
so the loop copies it unchanged. -/
def c2Doc : List Page := [⟨some ⟨0, 0, -1, 842⟩, 0⟩]

/-- C2 counterexample: it is not the case that after a (successful) run
of the patch loop every output page has width > 0 and height > 0: on
`c2Doc` the only output page keeps its bounding box of width `-1`. -/
theorem patch_output_not_always_positive :
    ¬ (∀ p ∈ (patch_pdf_mediabox_pages c2Doc).1, pageNondegenerate p) := by
  decide

/-- A page coming out of the loop never satisfies the patch test. -/
theorem patchPage_valid (q : Page) : pageNeedsPatch (patchPage q) = false := by
  unfold patchPage
  by_cases h : pageNeedsPatch q = true
  · rw [if_pos h]; rfl
  · rw [if_neg h]; simpa using h

/-- Every page of the loop's output fails the patch test: box present,
width and height nonzero. -/
theorem patch_output_valid (doc : List Page) :
    ∀ p ∈ (patch_pdf_mediabox_pages doc).1, pageNeedsPatch p = false := by
  rw [patch_pages_eq]
  intro p hp
  obtain ⟨q, _, rfl⟩ := List.mem_map.mp hp
  exact patchPage_valid q

/-- C2 (amended): after a successful run of the repair loop, every page
of the output has a bounding box present whose width and height are
nonzero.  (The code tests for zero only, so a pre-existing box of
negative width or height is copied unchanged: strict positivity fails,
see the counterexample.) -/
theorem patch_output_boxes_nonzero (doc : List Page) (p : Page)
    (hp : p ∈ (patch_pdf_mediabox_pages doc).1) :
    ∃ r, p.mediabox = some r ∧ r.width ≠ 0 ∧ r.height ≠ 0 := by
  have h := patch_output_valid doc p hp
  obtain ⟨mb, c⟩ := p
  cases mb with
  | none => simp [pageNeedsPatch] at h
  | some r =>
    simp only [pageNeedsPatch, Bool.or_eq_false_iff, beq_eq_false_iff_ne] at h
    exact ⟨r, rfl, h.1, h.2⟩

/-- C2 witness: the amended invariant, instantiated on the output page
produced from a one-page document with no bounding box. -/
theorem patch_output_boxes_nonzero_witness :
    ∃ r, (Page.mk (some a4MediaBox) 5).mediabox = some r
      ∧ r.width ≠ 0 ∧ r.height ≠ 0 :=
  patch_output_boxes_nonzero [Page.mk none 5] (Page.mk (some a4MediaBox) 5)
    (by decide)

/-! ### C3 -/

/-- The spec's "valid bounding box": present, with non-zero width and
height. -/
def pageValidBox (p : Page) : Bool :=
  match p.mediabox with
  | none => false
  | some r => r.width != 0 && r.height != 0

theorem validBox_not_needsPatch (p : Page) :
    pageValidBox p = true → pageNeedsPatch p = false := by
  obtain ⟨mb, c⟩ := p
  cases mb with
  | none => intro h; simp [pageValidBox] at h
  | some r =>
    intro h
    simp only [pageValidBox, Bool.and_eq_true, bne_iff_ne, ne_eq] at h
    simp [pageNeedsPatch, h.1, h.2]

/-- On a document whose pages all fail the patch test, the loop is the
identity and counts zero. -/
theorem patch_of_valid :
    ∀ doc : List Page, (∀ p ∈ doc, pageNeedsPatch p = false) →
      patch_pdf_mediabox_pages doc = (doc, 0)
  | [], _ => rfl
  | p :: ps, h => by
    have hp : pageNeedsPatch p = false := h p (List.mem_cons_self p ps)
    have ih := patch_of_valid ps (fun q hq => h q (List.mem_cons_of_mem p hq))
    simp [patch_pdf_mediabox_pages, hp, ih]

/-- C3: repair is idempotent.  On a PDF whose pages all already carry a
valid (non-zero width and height) bounding box, the loop returns the
pages unchanged and count 0; and for every PDF, running the loop on the
output of a first run returns that output unchanged (with count 0). -/
theorem patch_idempotent (doc : List Page) :
    ((∀ p ∈ doc, pageValidBox p = true) →
      patch_pdf_mediabox_pages doc = (doc, 0))
    ∧ patch_pdf_mediabox_pages (patch_pdf_mediabox_pages doc).1
      = ((patch_pdf_mediabox_pages doc).1, 0) := by
  constructor
  · intro h
    exact patch_of_valid doc (fun p hp => validBox_not_needsPatch p (h p hp))
  · exact patch_of_valid _ (patch_output_valid doc)

/-- A one-page document that is already valid. -/
def c3Doc : List Page := [⟨some ⟨0, 0, 10, 20⟩, 1⟩]

/-- C3 witness: on the already-valid `c3Doc` the loop changes nothing
and counts zero, and a second run on any first run's output is the
identity. -/
theorem patch_idempotent_witness :
    patch_pdf_mediabox_pages c3Doc = (c3Doc, 0)
    ∧ patch_pdf_mediabox_pages (patch_pdf_mediabox_pages c3Doc).1
      = ((patch_pdf_mediabox_pages c3Doc).1, 0) :=
  ⟨(patch_idempotent c3Doc).1 (by decide), (patch_idempotent c3Doc).2⟩

/-! ### C4 -/

theorem patchPage_content (p : Page) : (patchPage p).content = p.content := by
  unfold patchPage
  by_cases h : pageNeedsPatch p = true
  · rw [if_pos h]; rfl
  · rw [if_neg h]

/-- C4: the loop preserves page count and page order: the output has the
same length as the input, the page at each output index is the patched
form of the page at the same input index, and its payload (everything
besides the bounding box) is that of the input page at that index. -/
theorem patch_preserves_count_and_order (doc : List Page) :
    (patch_pdf_mediabox_pages doc).1.length = doc.length
    ∧ ∀ i : Nat,
        (patch_pdf_mediabox_pages doc).1[i]? = (doc[i]?).map patchPage
        ∧ ((patch_pdf_mediabox_pages doc).1[i]?).map Page.content
          = (doc[i]?).map Page.content := by
  rw [patch_pages_eq]
  refine ⟨List.length_map doc patchPage, fun i => ⟨List.getElem?_map patchPage doc i, ?_⟩⟩
  rw [List.getElem?_map]
  cases doc[i]? with
  | none => rfl
  | some p => simp [patchPage_content]

/-! ### C7 -/

theorem listPrefixB_append (s t : List Char) : listPrefixB s (s ++ t) = true := by
  induction s with
  | nil => rfl
  | cons a as ih => simp [listPrefixB, ih]

theorem toList_append (a b : String) : (a ++ b).toList = a.toList ++ b.toList := by
  cases a; cases b; rfl

/-- C7: when the source PDF cannot be parsed, or the destination cannot
be written, `patch_pdf_mediabox` returns success `false` with a message
beginning `"PDF patching failed: "` and no valid output file; and in
every case — success or failure — the source file is left unchanged. -/
theorem patch_failure_reported_source_untouched (src : PdfSource) (dst : WriteDest) :
    ((sourceParses src = false ∨ destWritable dst = false) →
      (patch_pdf_mediabox src dst).success = false
      ∧ listPrefixB "PDF patching failed: ".toList
          (patch_pdf_mediabox src dst).message.toList = true
      ∧ (patch_pdf_mediabox src dst).written = none)
    ∧ (patch_pdf_mediabox src dst).sourceAfter = src := by
  cases src with
  | unparsable en em =>
    refine ⟨fun _ => ⟨rfl, ?_, rfl⟩, rfl⟩
    show listPrefixB "PDF patching failed: ".toList
      ("PDF patching failed: " ++ en ++ ": " ++ em).toList = true
    simp only [toList_append, List.append_assoc]
    exact listPrefixB_append _ _
  | parsed pages =>
    cases dst with
    | writable =>
      refine ⟨fun h => ?_, rfl⟩
      rcases h with h | h <;> exact Bool.noConfusion h
    | unwritable en em =>
      refine ⟨fun _ => ⟨rfl, ?_, rfl⟩, rfl⟩
      show listPrefixB "PDF patching failed: ".toList
        ("PDF patching failed: " ++ en ++ ": " ++ em).toList = true
      simp only [toList_append, List.append_assoc]
      exact listPrefixB_append _ _

/-- C7 witness: an unparsable source with a writable destination. -/
theorem patch_failure_reported_source_untouched_witness :
    ((patch_pdf_mediabox (.unparsable "PdfReadError" "EOF marker not found")
        .writable).success = false
      ∧ listPrefixB "PDF patching failed: ".toList
          (patch_pdf_mediabox (.unparsable "PdfReadError" "EOF marker not found")
            .writable).message.toList = true
      ∧ (patch_pdf_mediabox (.unparsable "PdfReadError" "EOF marker not found")
          .writable).written = none)
    ∧ (patch_pdf_mediabox (.unparsable "PdfReadError" "EOF marker not found")
        .writable).sourceAfter = .unparsable "PdfReadError" "EOF marker not found" :=
  ⟨(patch_failure_reported_source_untouched
      (.unparsable "PdfReadError" "EOF marker not found") .writable).1
      (Or.inl rfl),
    (patch_failure_reported_source_untouched
      (.unparsable "PdfReadError" "EOF marker not found") .writable).2⟩

/-! ### C5 -/

/-- The guard of line 171: the first `converter.convert` raised a
`RuntimeError` whose text contains the MediaBox phrase, and the input
file has a `.pdf` suffix. -/
def mediaboxRetryCase (env : ConvEnv) : Prop :=
  env.isPdfSuffix = true
  ∧ ∃ m, env.firstAttempt = .raises (.runtimeError m)
      ∧ listSubstrB mediaboxErrPhrase m = true

/-- C5: a conversion failure indicating missing page-dimension metadata
triggers exactly one repair attempt, and — when the patch succeeds —
exactly one retry with the patched file; when the patch fails there is
no retry and the failure is returned; if the retry fails, that failure
is returned to the caller with no further attempts.  Every other
conversion failure returns at once, with no repair and no retry. -/
theorem convert_retry_discipline (env : ConvEnv) :
    (mediaboxRetryCase env →
      (convert_document_to_markdown env).patchCalls = 1
      ∧ (convert_document_to_markdown env).convertCalls
          = (if env.patchSuccess then 2 else 1)
      ∧ (env.patchSuccess = true →
          (convert_document_to_markdown env).usedPatchedFile = true)
      ∧ (env.patchSuccess = true → env.retryAttempt ≠ .ok →
          (convert_document_to_markdown env).success = false)
      ∧ (env.patchSuccess = false →
          (convert_document_to_markdown env).success = false))
    ∧ (∀ e, env.firstAttempt = .raises e → ¬ mediaboxRetryCase env →
        (convert_document_to_markdown env).patchCalls = 0
        ∧ (convert_document_to_markdown env).convertCalls = 1
        ∧ (convert_document_to_markdown env).success = false) := by
  obtain ⟨pdf, fa, ps, pm, ra⟩ := env
  constructor
  · rintro ⟨hpdf, m, hfa, hsub⟩
    simp only at hpdf hfa
    subst hpdf hfa
    cases ps with
    | true =>
      cases ra with
      | ok => simp [convert_document_to_markdown, hsub]
      | raises e2 => simp [convert_document_to_markdown, hsub]
    | false => simp [convert_document_to_markdown, hsub]
  · rintro e hfa hnot
    simp only at hfa
    subst hfa
    cases e with
    | runtimeError m =>
      have hcond : (pdf && listSubstrB mediaboxErrPhrase m) = false := by
        cases hp : pdf
        · rfl
        · cases hs : listSubstrB mediaboxErrPhrase m
          · rfl
          · exact absurd ⟨hp, m, rfl, hs⟩ hnot
      simp [convert_document_to_markdown, hcond]
    | fileNotFoundError m => simp [convert_document_to_markdown]
    | otherError en m => simp [convert_document_to_markdown]

/-- A mediabox-failure environment whose retry also fails. -/
def c5EnvA : ConvEnv :=
  ⟨true, .raises (.runtimeError mediaboxErrPhrase), true, "",
    .raises (.runtimeError mediaboxErrPhrase)⟩

/-- A non-PDF failure environment. -/
def c5EnvB : ConvEnv := ⟨false, .raises (.otherError "ValueError" []), true, "", .ok⟩

/-- C5 witness: on `c5EnvA` one patch and one retry happen and the
retry's failure is returned; on `c5EnvB` no patch and no retry happen. -/
theorem convert_retry_discipline_witness :
    ((convert_document_to_markdown c5EnvA).patchCalls = 1
      ∧ (convert_document_to_markdown c5EnvA).convertCalls = 2
      ∧ (convert_document_to_markdown c5EnvA).usedPatchedFile = true
      ∧ (convert_document_to_markdown c5EnvA).success = false)
    ∧ ((convert_document_to_markdown c5EnvB).patchCalls = 0
      ∧ (convert_document_to_markdown c5EnvB).convertCalls = 1
      ∧ (convert_document_to_markdown c5EnvB).success = false) := by
  have hA := (convert_retry_discipline c5EnvA).1
    ⟨rfl, mediaboxErrPhrase, rfl, by decide⟩
  have hB := (convert_retry_discipline c5EnvB).2 (.otherError "ValueError" []) rfl
    (fun h => Bool.noConfusion h.1)
  refine ⟨⟨hA.1, ?_, hA.2.2.1 rfl, hA.2.2.2.1 rfl (by decide)⟩, hB⟩
  simpa using hA.2.1

/-! ### C10 -/

/-- C10: the repair-and-retry path is entered exactly when the input
file's suffix is `.pdf` (lower-cased), the first conversion attempt
raises a `RuntimeError`, and the error text contains the exact substring
`"could not find the page-dimensions"`; in particular a non-PDF failure,
a non-`RuntimeError` exception, or a PDF `RuntimeError` with any other
text never triggers a repair. -/
theorem convert_patch_gate (env : ConvEnv) :
    (convert_document_to_markdown env).patchCalls = 1 ↔ mediaboxRetryCase env := by
  obtain ⟨pdf, fa, ps, pm, ra⟩ := env
  cases fa with
  | ok => simp [convert_document_to_markdown, mediaboxRetryCase]
  | raises e =>
    cases e with
    | runtimeError m =>
      cases hp : pdf
      · simp [convert_document_to_markdown, mediaboxRetryCase, hp]
      · cases hs : listSubstrB mediaboxErrPhrase m
        · simp [convert_document_to_markdown, mediaboxRetryCase, hp, hs]
        · cases ps with
          | true =>
            cases ra with
            | ok => simp [convert_document_to_markdown, mediaboxRetryCase, hp, hs]
            | raises e2 =>
              simp [convert_document_to_markdown, mediaboxRetryCase, hp, hs]
          | false => simp [convert_document_to_markdown, mediaboxRetryCase, hp, hs]
    | fileNotFoundError m => simp [convert_document_to_markdown, mediaboxRetryCase]
    | otherError en m => simp [convert_document_to_markdown, mediaboxRetryCase]

/-! ### C6 -/

/-- A work item counts as a success when its file exists and its
conversion succeeds. -/
def itemOk (e : ItemEnv) : Bool := e.fileOnDisk && e.convertOk

theorem processItem_eq (acc : Nat × Nat) (e : ItemEnv) :
    processItem acc e
      = (acc.1 + (if itemOk e then 1 else 0),
         acc.2 + (if itemOk e then 0 else 1)) := by
  obtain ⟨d, c⟩ := e
  cases d <;> cases c <;> simp [processItem, itemOk]

theorem mainLoop_general (env : PyStr → ItemEnv) :
    ∀ (files : List PyStr) (a b : Nat),
      files.foldl (fun acc f => processItem acc (env f)) (a, b)
      = (a + files.countP (fun f => itemOk (env f)),
         b + files.countP (fun f => !itemOk (env f))) := by
  intro files
  induction files with
  | nil => intro a b; simp
  | cons f fs ih =>
    intro a b
    rw [List.foldl_cons, processItem_eq, ih]
    simp only [List.countP_cons]
    cases h : itemOk (env f) <;> simp [h] <;> omega

theorem mainLoopCounts_eq (env : PyStr → ItemEnv) (files : List PyStr) :
    mainLoopCounts env files
      = (files.countP (fun f => itemOk (env f)),
         files.countP (fun f => !itemOk (env f))) := by
  have h := mainLoop_general env files 0 0
  simpa [mainLoopCounts] using h

theorem countP_not_add (p : α → Bool) :
    ∀ l : List α, l.countP p + l.countP (fun a => !p a) = l.length := by
  intro l
  induction l with
  | nil => rfl
  | cons a t ih =>
    simp only [List.countP_cons, List.length_cons]
    cases h : p a <;> simp [h] <;> omega

/-- C6: `main` returns 0 exactly when every configured work item has an
existing file and a successful conversion; otherwise it returns 1 (the
only other exit value); and the loop attempts every item — the success
and failure counters always sum to the number of work items. -/
theorem main_exit_code (cfg : Option ConfigData) (env : PyStr → ItemEnv)
    (files : List PyStr) (h : parse_config cfg = .ok files) :
    (main cfg env = 0 ↔
      ∀ f ∈ files, (env f).fileOnDisk = true ∧ (env f).convertOk = true)
    ∧ (main cfg env = 0 ∨ main cfg env = 1)
    ∧ (mainLoopCounts env files).1 + (mainLoopCounts env files).2
        = files.length := by
  have hmain : main cfg env
      = (if files.isEmpty then 0
         else if (mainLoopCounts env files).2 = 0 then 0 else 1) := by
    unfold main
    rw [h]
  have hsum : (mainLoopCounts env files).1 + (mainLoopCounts env files).2
      = files.length := by
    rw [mainLoopCounts_eq]
    exact countP_not_add _ files
  cases files with
  | nil => exact ⟨by simp [hmain], Or.inl (by simp [hmain]), hsum⟩
  | cons f0 fs =>
    refine ⟨?_, ?_, hsum⟩
    · rw [hmain, mainLoopCounts_eq]
      simp only [List.isEmpty_cons, Bool.false_eq_true, if_false]
      constructor
      · intro h0 f hf
        have hz : (f0 :: fs).countP (fun g => !itemOk (env g)) = 0 := by
          by_contra hz
          simp [hz] at h0
        have hnot := List.countP_eq_zero.mp hz f hf
        have hok : itemOk (env f) = true := by
          cases hio : itemOk (env f)
          · exact absurd (by simp [hio]) hnot
          · rfl
        simpa [itemOk, Bool.and_eq_true] using hok
      · intro hall
        have hz : (f0 :: fs).countP (fun g => !itemOk (env g)) = 0 :=
          List.countP_eq_zero.mpr (fun f hf => by
            obtain ⟨h1, h2⟩ := hall f hf
            simp [itemOk, h1, h2])
        simp [hz]
    · rw [hmain]
      simp only [List.isEmpty_cons, Bool.false_eq_true, if_false]
      by_cases hz : (mainLoopCounts env (f0 :: fs)).2 = 0
      · exact Or.inl (by simp [hz])
      · exact Or.inr (by simp [hz])

/-- A two-item configuration. -/
def c6Cfg : ConfigData := ⟨some [(['a'], ['x']), (['b'], ['y'])]⟩

/-- Item `x` converts; item `y` exists but fails to convert. -/
def c6Env : PyStr → ItemEnv := fun f => if f = ['x'] then ⟨true, true⟩ else ⟨true, false⟩

/-- C6 witness: on a configuration with one succeeding and one failing
item, `main` is nonzero, both items are counted, and the exit-code
equivalence holds. -/
theorem main_exit_code_witness :
    (main (some c6Cfg) c6Env = 0 ↔
      ∀ f ∈ [['x'], ['y']], (c6Env f).fileOnDisk = true ∧ (c6Env f).convertOk = true)
    ∧ (main (some c6Cfg) c6Env = 0 ∨ main (some c6Cfg) c6Env = 1)
    ∧ (mainLoopCounts c6Env [['x'], ['y']]).1
        + (mainLoopCounts c6Env [['x'], ['y']]).2 = ([['x'], ['y']] : List PyStr).length :=
  main_exit_code (some c6Cfg) c6Env [['x'], ['y']] (by decide)

/-! ### C8 -/

/-- C8: with a missing configuration file, `parse_config` raises the
configuration-missing error and `main` exits 1, whatever the per-item
environment would have been. -/
theorem missing_config_exits_nonzero :
    parse_config none
      = .fileNotFound "Configuration file not found: input/config.ini"
    ∧ ∀ env, main none env = 1 :=
  ⟨rfl, fun _ => rfl⟩

/-! ### C9 -/

theorem dropWhile_append_singleton (p : Char → Bool) (c : Char) (h : p c = false) :
    ∀ l : List Char, ∃ z, (l ++ [c]).dropWhile p = z ++ [c] := by
  intro l
  induction l with
  | nil =>
    refine ⟨[], ?_⟩
    simp [List.dropWhile_cons, h]
  | cons a t ih =>
    rw [List.cons_append, List.dropWhile_cons]
    cases ha : p a
    · exact ⟨a :: t, by simp⟩
    · simpa using ih

theorem pyStrip_hash_head (t : List Char) :
    ∃ u, pyStrip ('#' :: t) = '#' :: u := by
  unfold pyStrip
  have hws : Char.isWhitespace '#' = false := by decide
  have h1 : ('#' :: t).dropWhile Char.isWhitespace = '#' :: t := by
    simp [List.dropWhile_cons, hws]
  rw [h1]
  have h2 : ('#' :: t).reverse = t.reverse ++ ['#'] := by simp
  rw [h2]
  obtain ⟨z, hz⟩ := dropWhile_append_singleton Char.isWhitespace '#' hws t.reverse
  rw [hz]
  exact ⟨z.reverse, by simp⟩

/-- An empty value, or a value beginning with `#`, is skipped by the
filter of line 53. -/
theorem configEntryKept_skip (v : PyStr)
    (h : v = [] ∨ v.head? = some '#') : configEntryKept v = false := by
  rcases h with h | h
  · subst h; rfl
  · obtain ⟨t, rfl⟩ : ∃ t, v = '#' :: t := by
      cases v with
      | nil => simp at h
      | cons a t =>
        simp only [List.head?_cons, Option.some.injEq] at h
        exact ⟨t, by rw [h]⟩
    obtain ⟨u, hu⟩ := pyStrip_hash_head t
    simp [configEntryKept, hu, listPrefixB]

/-- C9: a configuration whose entries are all empty or begin with `#`
parses to an empty work list, and `main` then exits 0 — a successful run
with zero work items. -/
theorem commented_config_successful_empty_run (entries : List (PyStr × PyStr))
    (h : ∀ kv ∈ entries, kv.2 = [] ∨ kv.2.head? = some '#') :
    parse_config (some ⟨some entries⟩) = .ok []
    ∧ ∀ env, main (some ⟨some entries⟩) env = 0 := by
  have hfilter : entries.filter (fun kv => configEntryKept kv.2) = [] := by
    rw [List.filter_eq_nil_iff]
    intro kv hkv
    simp [configEntryKept_skip kv.2 (h kv hkv)]
  have hpc : parse_config (some ⟨some entries⟩) = .ok [] := by
    simp [parse_config, hfilter]
  refine ⟨hpc, fun env => ?_⟩
  unfold main
  rw [hpc]
  rfl

/-- One empty entry and one commented entry. -/
def c9Entries : List (PyStr × PyStr) := [(['k', '1'], []), (['k', '2'], ['#', ' ', 'x'])]

/-- C9 witness: the commented/empty configuration `c9Entries` yields the
empty work list and a zero exit code. -/
theorem commented_config_successful_empty_run_witness :
    parse_config (some ⟨some c9Entries⟩) = .ok []
    ∧ main (some ⟨some c9Entries⟩) (fun _ => ⟨true, true⟩) = 0 := by
  have h := commented_config_successful_empty_run c9Entries (by decide)
  exact ⟨h.1, h.2 _⟩

end MarkdownConverter
